import Mathlib

/-!
Verification of the Smart-Go-WebCrawler core against its specification.

The Go sources are shallowly embedded:
* Go `float64` values are modelled as exact rationals; each float operation
  computes the exact rational result and then rounds it with `round53`
  (IEEE-754 binary64: 53 significant bits, round to nearest, ties to even;
  the normal range suffices, since every value the program manipulates is
  far from overflow and underflow).
* Go `int` is modelled as `ℤ` (no computation here approaches 2^63).
* Go strings are modelled as `List Char`; only ASCII case-mapping is needed
  (every keyword and URL pattern in the source is ASCII).
* `net/url.Parse` is an external collaborator and is kept abstract as a
  parameter `parse : List Char → Option ParsedURL`.
* The Postgres-backed frontier is modelled as a list of `crawl_queue` rows,
  with each SQL statement of `database/postgres.go` translated to a pure
  state transformation.
-/

set_option maxRecDepth 20000

namespace Crawler

/-! ## IEEE-754 binary64 model over ℚ -/

/-- Fuel-bounded ⌊log₂ n⌋ for natural numbers (structural recursion so the
kernel can evaluate it). `natLog2F fuel n = ⌊log₂ n⌋` whenever `n ≥ 1` and
`fuel` is large enough. -/
def natLog2F : ℕ → ℕ → ℕ
  | 0, _ => 0
  | fuel + 1, n => if n ≤ 1 then 0 else natLog2F fuel (n / 2) + 1

/-- Fuel-bounded ⌈log₂ n⌉ for natural numbers. -/
def natClog2F : ℕ → ℕ → ℕ
  | 0, _ => 0
  | fuel + 1, n => if n ≤ 1 then 0 else natClog2F fuel ((n + 1) / 2) + 1

/-- ⌊log₂ q⌋ for a positive rational, via the integer logs: an integer power
of two `2^e` satisfies `2^e ≤ q` iff `2^e ≤ ⌊q⌋` (for `q ≥ 1`), and
`2^k ≥ 1/q` iff `2^k ≥ ⌈1/q⌉` (for `q < 1`). -/
def flog2 (q : ℚ) : ℤ :=
  if 1 ≤ q then (natLog2F 4096 ⌊q⌋.toNat : ℤ)
  else -(natClog2F 4096 ⌈1 / q⌉.toNat : ℤ)

/-- Round a rational to an integer, to nearest, ties to even. -/
def roundHalfEven (x : ℚ) : ℤ :=
  if x - (⌊x⌋ : ℚ) < 1 / 2 then ⌊x⌋
  else if 1 / 2 < x - (⌊x⌋ : ℚ) then ⌊x⌋ + 1
  else if ⌊x⌋ % 2 = 0 then ⌊x⌋ else ⌊x⌋ + 1

/-- Round a positive rational to the nearest binary64 value: scale into
`[2^52, 2^53)`, round the 53-bit significand to nearest (ties to even),
scale back. -/
def round53pos (q : ℚ) : ℚ :=
  ((roundHalfEven (q * (2 : ℚ) ^ (52 - flog2 q)) : ℤ) : ℚ) * (2 : ℚ) ^ (flog2 q - 52)

/-- Round a rational to the nearest binary64 value. -/
def round53 (q : ℚ) : ℚ :=
  if q < 0 then -(round53pos (-q)) else if q = 0 then 0 else round53pos q

/-- Go `float64` addition: exact sum, then binary64 rounding. -/
def fadd (x y : ℚ) : ℚ := round53 (x + y)

/-- Go `float64` multiplication: exact product, then binary64 rounding. -/
def fmul (x y : ℚ) : ℚ := round53 (x * y)

/-- Go `float64` division: exact quotient, then binary64 rounding. -/
def fdiv (x y : ℚ) : ℚ := round53 (x / y)

/-- The binary64 value of the Go literal `0.3`. -/
def lit03 : ℚ := round53 (3 / 10)

/-- The binary64 value of the Go literal `0.2`. -/
def lit02 : ℚ := round53 (2 / 10)

/-- The binary64 value of the Go literal `0.1`. -/
def lit01 : ℚ := round53 (1 / 10)

/-- Go's `int(x)` conversion for `float64`: truncation toward zero. -/
def ratTrunc (q : ℚ) : ℤ := if q < 0 then -⌊-q⌋ else ⌊q⌋

theorem roundHalfEven_nonneg (x : ℚ) (h : 0 ≤ x) : 0 ≤ roundHalfEven x := by
  unfold roundHalfEven
  have hf : 0 ≤ ⌊x⌋ := Int.floor_nonneg.mpr h
  split_ifs <;> omega

theorem round53_nonneg (q : ℚ) (h : 0 ≤ q) : 0 ≤ round53 q := by
  unfold round53
  split_ifs with h1 h2
  · exact absurd h1 (not_lt.mpr h)
  · exact le_refl 0
  · unfold round53pos
    apply mul_nonneg
    · exact_mod_cast roundHalfEven_nonneg _
        (mul_nonneg h (le_of_lt (by positivity)))
    · positivity

/-! Evaluation helpers: compute `round53` on a concrete rational from a
concrete exponent and significand. -/

theorem flog2_eval_ge1 (q : ℚ) (hq : 1 ≤ q) (n : ℤ) (hn : ⌊q⌋ = n) :
    flog2 q = (natLog2F 4096 n.toNat : ℤ) := by
  rw [flog2, if_pos hq, hn]

theorem flog2_eval_lt1 (q : ℚ) (hq : ¬ 1 ≤ q) (n : ℤ) (hn : ⌈1 / q⌉ = n) :
    flog2 q = -(natClog2F 4096 n.toNat : ℤ) := by
  rw [flog2, if_neg hq, hn]

theorem roundHalfEven_eval_down (x : ℚ) (f : ℤ) (hf : ⌊x⌋ = f)
    (h : x - (f : ℚ) < 1 / 2) : roundHalfEven x = f := by
  rw [roundHalfEven, hf, if_pos h]

theorem roundHalfEven_eval_up (x : ℚ) (f : ℤ) (hf : ⌊x⌋ = f)
    (h1 : ¬ x - (f : ℚ) < 1 / 2) (h2 : 1 / 2 < x - (f : ℚ)) :
    roundHalfEven x = f + 1 := by
  rw [roundHalfEven, hf, if_neg h1, if_pos h2]

theorem roundHalfEven_eval_tie_even (x : ℚ) (f : ℤ) (hf : ⌊x⌋ = f)
    (h1 : ¬ x - (f : ℚ) < 1 / 2) (h2 : ¬ 1 / 2 < x - (f : ℚ))
    (h3 : f % 2 = 0) : roundHalfEven x = f := by
  rw [roundHalfEven, hf, if_neg h1, if_neg h2, if_pos h3]

theorem round53_eval_pos (q : ℚ) (hq : 0 < q) (e m : ℤ) (he : flog2 q = e)
    (hm : roundHalfEven (q * (2 : ℚ) ^ (52 - e)) = m) :
    round53 q = (m : ℚ) * (2 : ℚ) ^ (e - 52) := by
  rw [round53, if_neg (not_lt.mpr hq.le), if_neg (ne_of_gt hq), round53pos, he, hm]

/-! Concrete binary64 values used by the crawler's scoring code. Each lemma
pins down one rounding step; the significands are the usual IEEE-754 doubles
(e.g. `0.3` is `5404319552844595 × 2⁻⁵⁴`). -/

theorem lit03_eval : lit03 = 5404319552844595 / 18014398509481984 := by
  rw [lit03]
  have he : flog2 ((3:ℚ) / 10) = -2 := by
    rw [flog2_eval_lt1 ((3:ℚ)/10) (by norm_num) 4 (by
      rw [Int.ceil_eq_iff]; norm_num)]
    decide
  have hm : roundHalfEven ((3:ℚ)/10 * (2:ℚ) ^ ((52:ℤ) - (-2))) = 5404319552844595 := by
    have hx : (3:ℚ)/10 * (2:ℚ) ^ ((52:ℤ) - (-2)) = 27021597764222976 / 5 := by norm_num
    rw [hx]
    exact roundHalfEven_eval_down _ 5404319552844595 (by norm_num) (by norm_num)
  rw [round53_eval_pos ((3:ℚ)/10) (by norm_num) (-2) 5404319552844595 he hm]
  norm_num

theorem lit02_eval : lit02 = 3602879701896397 / 18014398509481984 := by
  rw [lit02]
  have he : flog2 ((2:ℚ) / 10) = -3 := by
    rw [flog2_eval_lt1 ((2:ℚ)/10) (by norm_num) 5 (by
      rw [Int.ceil_eq_iff]; norm_num)]
    decide
  have hm : roundHalfEven ((2:ℚ)/10 * (2:ℚ) ^ ((52:ℤ) - (-3))) = 7205759403792794 := by
    have hx : (2:ℚ)/10 * (2:ℚ) ^ ((52:ℤ) - (-3)) = 36028797018963968 / 5 := by norm_num
    rw [hx]
    exact roundHalfEven_eval_up _ 7205759403792793 (by norm_num) (by norm_num) (by norm_num)
  rw [round53_eval_pos ((2:ℚ)/10) (by norm_num) (-3) 7205759403792794 he hm]
  norm_num

theorem lit01_eval : lit01 = 3602879701896397 / 36028797018963968 := by
  rw [lit01]
  have he : flog2 ((1:ℚ) / 10) = -4 := by
    rw [flog2_eval_lt1 ((1:ℚ)/10) (by norm_num) 10 (by
      rw [Int.ceil_eq_iff]; norm_num)]
    decide
  have hm : roundHalfEven ((1:ℚ)/10 * (2:ℚ) ^ ((52:ℤ) - (-4))) = 7205759403792794 := by
    have hx : (1:ℚ)/10 * (2:ℚ) ^ ((52:ℤ) - (-4)) = 36028797018963968 / 5 := by norm_num
    rw [hx]
    exact roundHalfEven_eval_up _ 7205759403792793 (by norm_num) (by norm_num) (by norm_num)
  rw [round53_eval_pos ((1:ℚ)/10) (by norm_num) (-4) 7205759403792794 he hm]
  norm_num

theorem fadd_zero_lit03 : fadd 0 lit03 = 5404319552844595 / 18014398509481984 := by
  rw [fadd, lit03_eval]
  have hx : (0:ℚ) + 5404319552844595 / 18014398509481984
      = 5404319552844595 / 18014398509481984 := by norm_num
  rw [hx]
  have he : flog2 ((5404319552844595:ℚ) / 18014398509481984) = -2 := by
    rw [flog2_eval_lt1 _ (by norm_num) 4 (by rw [Int.ceil_eq_iff]; norm_num)]
    decide
  have hm : roundHalfEven ((5404319552844595:ℚ) / 18014398509481984 * (2:ℚ) ^ ((52:ℤ) - (-2)))
      = 5404319552844595 := by
    have hy : (5404319552844595:ℚ) / 18014398509481984 * (2:ℚ) ^ ((52:ℤ) - (-2))
        = 5404319552844595 := by norm_num
    rw [hy]
    exact roundHalfEven_eval_down _ 5404319552844595 (by norm_num) (by norm_num)
  rw [round53_eval_pos _ (by norm_num) (-2) 5404319552844595 he hm]
  norm_num

theorem fadd_step2 : fadd (5404319552844595 / 18014398509481984) lit02 = 1 / 2 := by
  rw [fadd, lit02_eval]
  have hx : (5404319552844595:ℚ) / 18014398509481984 + 3602879701896397 / 18014398509481984
      = 1 / 2 := by norm_num
  rw [hx]
  have he : flog2 ((1:ℚ) / 2) = -1 := by
    rw [flog2_eval_lt1 _ (by norm_num) 2 (by rw [Int.ceil_eq_iff]; norm_num)]
    decide
  have hm : roundHalfEven ((1:ℚ) / 2 * (2:ℚ) ^ ((52:ℤ) - (-1))) = 4503599627370496 := by
    have hy : (1:ℚ) / 2 * (2:ℚ) ^ ((52:ℤ) - (-1)) = 4503599627370496 := by norm_num
    rw [hy]
    exact roundHalfEven_eval_down _ 4503599627370496 (by norm_num) (by norm_num)
  rw [round53_eval_pos _ (by norm_num) (-1) 4503599627370496 he hm]
  norm_num

theorem fadd_step3 : fadd (1 / 2) lit02 = 3152519739159347 / 4503599627370496 := by
  rw [fadd, lit02_eval]
  have hx : (1:ℚ) / 2 + 3602879701896397 / 18014398509481984
      = 12610078956637389 / 18014398509481984 := by norm_num
  rw [hx]
  have he : flog2 ((12610078956637389:ℚ) / 18014398509481984) = -1 := by
    rw [flog2_eval_lt1 _ (by norm_num) 2 (by rw [Int.ceil_eq_iff]; norm_num)]
    decide
  have hm : roundHalfEven ((12610078956637389:ℚ) / 18014398509481984 * (2:ℚ) ^ ((52:ℤ) - (-1)))
      = 6305039478318694 := by
    have hy : (12610078956637389:ℚ) / 18014398509481984 * (2:ℚ) ^ ((52:ℤ) - (-1))
        = 12610078956637389 / 2 := by norm_num
    rw [hy]
    exact roundHalfEven_eval_tie_even _ 6305039478318694 (by norm_num) (by norm_num)
      (by norm_num) (by decide)
  rw [round53_eval_pos _ (by norm_num) (-1) 6305039478318694 he hm]
  norm_num

theorem fadd_step4 : fadd (3152519739159347 / 4503599627370496) lit02
    = 2026619832316723 / 2251799813685248 := by
  rw [fadd, lit02_eval]
  have hx : (3152519739159347:ℚ) / 4503599627370496 + 3602879701896397 / 18014398509481984
      = 16212958658533785 / 18014398509481984 := by norm_num
  rw [hx]
  have he : flog2 ((16212958658533785:ℚ) / 18014398509481984) = -1 := by
    rw [flog2_eval_lt1 _ (by norm_num) 2 (by rw [Int.ceil_eq_iff]; norm_num)]
    decide
  have hm : roundHalfEven ((16212958658533785:ℚ) / 18014398509481984 * (2:ℚ) ^ ((52:ℤ) - (-1)))
      = 8106479329266892 := by
    have hy : (16212958658533785:ℚ) / 18014398509481984 * (2:ℚ) ^ ((52:ℤ) - (-1))
        = 16212958658533785 / 2 := by norm_num
    rw [hy]
    exact roundHalfEven_eval_tie_even _ 8106479329266892 (by norm_num) (by norm_num)
      (by norm_num) (by decide)
  rw [round53_eval_pos _ (by norm_num) (-1) 8106479329266892 he hm]
  norm_num

theorem fadd_step5 : fadd (2026619832316723 / 2251799813685248) lit01
    = 9007199254740991 / 9007199254740992 := by
  rw [fadd, lit01_eval]
  have hx : (2026619832316723:ℚ) / 2251799813685248 + 3602879701896397 / 36028797018963968
      = 36028797018963965 / 36028797018963968 := by norm_num
  rw [hx]
  have he : flog2 ((36028797018963965:ℚ) / 36028797018963968) = -1 := by
    rw [flog2_eval_lt1 _ (by norm_num) 2 (by rw [Int.ceil_eq_iff]; norm_num)]
    decide
  have hm : roundHalfEven ((36028797018963965:ℚ) / 36028797018963968 * (2:ℚ) ^ ((52:ℤ) - (-1)))
      = 9007199254740991 := by
    have hy : (36028797018963965:ℚ) / 36028797018963968 * (2:ℚ) ^ ((52:ℤ) - (-1))
        = 36028797018963965 / 4 := by norm_num
    rw [hy]
    exact roundHalfEven_eval_down _ 9007199254740991 (by norm_num) (by norm_num)
  rw [round53_eval_pos _ (by norm_num) (-1) 9007199254740991 he hm]
  norm_num

theorem fmul_049_20 : fmul (49 / 100) 20 = 5516909543528858 / 562949953421312 := by
  rw [fmul]
  have hx : (49:ℚ) / 100 * 20 = 49 / 5 := by norm_num
  rw [hx]
  have he : flog2 ((49:ℚ) / 5) = 3 := by
    rw [flog2_eval_ge1 _ (by norm_num) 9 (by norm_num)]
    decide
  have hm : roundHalfEven ((49:ℚ) / 5 * (2:ℚ) ^ ((52:ℤ) - 3)) = 5516909543528858 := by
    have hy : (49:ℚ) / 5 * (2:ℚ) ^ ((52:ℤ) - 3) = 27584547717644288 / 5 := by norm_num
    rw [hy]
    exact roundHalfEven_eval_up _ 5516909543528857 (by norm_num) (by norm_num) (by norm_num)
  rw [round53_eval_pos _ (by norm_num) 3 5516909543528858 he hm]
  norm_num

theorem fmul_half_20 : fmul (1 / 2) 20 = 10 := by
  rw [fmul]
  have hx : (1:ℚ) / 2 * 20 = 10 := by norm_num
  rw [hx]
  have he : flog2 ((10:ℚ)) = 3 := by
    rw [flog2_eval_ge1 _ (by norm_num) 10 (by norm_num)]
    decide
  have hm : roundHalfEven ((10:ℚ) * (2:ℚ) ^ ((52:ℤ) - 3)) = 5629499534213120 := by
    have hy : (10:ℚ) * (2:ℚ) ^ ((52:ℤ) - 3) = 5629499534213120 := by norm_num
    rw [hy]
    exact roundHalfEven_eval_down _ 5629499534213120 (by norm_num) (by norm_num)
  rw [round53_eval_pos _ (by norm_num) 3 5629499534213120 he hm]
  norm_num

/-! ## Strings (Go strings are `List Char`; the crawler only case-maps ASCII) -/

/-- ASCII lower-casing of one character (the fragment of Go's
`strings.ToLower` exercised by the crawler's ASCII keywords and patterns). -/
def toLowerCh (c : Char) : Char :=
  if ('A' ≤ c ∧ c ≤ 'Z') then Char.ofNat (c.toNat + 32) else c

/-- Go `strings.ToLower` on the ASCII fragment. -/
def lowerStr (s : List Char) : List Char := s.map toLowerCh

/-- ASCII whitespace test (the fragment of Go's `unicode.IsSpace` relevant
to anchor text). -/
def isSpaceCh (c : Char) : Bool := c == ' ' || c == '\t' || c == '\n' || c == '\r'

/-- Go `strings.TrimSpace`. -/
def trimSpace (s : List Char) : List Char :=
  ((s.dropWhile isSpaceCh).reverse.dropWhile isSpaceCh).reverse

/-- Does `s` start with `pat`? -/
def startsWithPat : List Char → List Char → Bool
  | [], _ => true
  | _ :: _, [] => false
  | p :: ps, c :: cs => p == c && startsWithPat ps cs

/-- Go `strings.Contains hay pat`: does `pat` occur as a contiguous
substring of `hay`? -/
def containsSub : List Char → List Char → Bool
  | [], pat => pat.isEmpty
  | c :: cs, pat => startsWithPat pat (c :: cs) || containsSub cs pat

/-! ## utils.IsValidURL (src/unnamed/part_002, lines 8-42) -/

/-- The result of `net/url.Parse` as consumed by `IsValidURL`: only the
scheme and host fields are inspected. `url.Parse` itself is an external
collaborator (Go standard library), so the parser stays an abstract
parameter; `none` models a parse error. -/
structure ParsedURL where
  scheme : List Char
  host : List Char

/-- The substring exclusion list of `utils.IsValidURL` (lines 29-32). -/
def excludePatterns : List (List Char) :=
  [".css".toList, ".js".toList, ".png".toList, ".jpg".toList, ".jpeg".toList,
   ".gif".toList, ".svg".toList, ".ico".toList, ".pdf".toList, ".zip".toList,
   ".exe".toList, ".dmg".toList, "mailto:".toList, "tel:".toList]

/-- `utils.IsValidURL` (lines 8-42): empty check, parse, non-empty scheme
and host, http/https scheme, then rejection of any URL whose lower-cased
text contains one of the excluded substrings. -/
def IsValidURL (parse : List Char → Option ParsedURL) (rawURL : List Char) : Bool :=
  if rawURL.isEmpty then false
  else
    match parse rawURL with
    | none => false
    | some u =>
      if u.scheme.isEmpty || u.host.isEmpty then false
      else if !(u.scheme == "http".toList) && !(u.scheme == "https".toList) then false
      else if excludePatterns.any (fun pat => containsSub (lowerStr rawURL) pat) then false
      else true

/-! ## Link prioritizer (src/unnamed/part_001, calculateLinkPriority,
lines 252-305) -/

/-- The high-priority anchor-text keywords (line 259). -/
def highPriorityKeywords : List (List Char) :=
  ["article".toList, "news".toList, "blog".toList, "content".toList,
   "post".toList, "story".toList, "research".toList, "documentation".toList]

/-- The low-priority anchor-text keywords (line 268). -/
def lowPriorityKeywords : List (List Char) :=
  ["login".toList, "register".toList, "contact".toList, "about".toList,
   "terms".toList, "privacy".toList, "sitemap".toList]

/-- Line 294, `priority += int(pageContext.Importance * 20)`: the referring
page's importance is multiplied by 20 in `float64` and converted with Go's
`int(...)`, i.e. truncated toward zero. -/
def importanceContribution (importance : ℚ) : ℤ :=
  ratTrunc (fmul importance 20)

/-- The final bounds enforcement of `calculateLinkPriority` (lines 296-302):
`if priority < 1 { priority = 1 }` then `if priority > 100 { priority = 100 }`. -/
def clampPriority (priority : ℤ) : ℤ :=
  let priority := if priority < 1 then 1 else priority
  if priority > 100 then 100 else priority

/-- `calculateLinkPriority` (lines 252-305). The keyword loops `break` after
the first match and every match adds the same amount, so each loop is
equivalently `List.any`. The `rel`/`class` attributes are `Option`s
(`goquery.Attr` reports existence). -/
def calculateLinkPriority (anchorText : List Char) (rel cls : Option (List Char))
    (importance : ℚ) : ℤ :=
  let priority : ℤ := 50
  let lowerAnchor := lowerStr (trimSpace anchorText)
  let priority := if highPriorityKeywords.any (fun k => containsSub lowerAnchor k)
    then priority + 20 else priority
  let priority := if lowPriorityKeywords.any (fun k => containsSub lowerAnchor k)
    then priority - 15 else priority
  let priority := match rel with
    | some r => if containsSub r "nofollow".toList then priority - 30 else priority
    | none => priority
  let priority := match cls with
    | some c =>
      let priority := if containsSub c "nav".toList || containsSub c "menu".toList
        then priority - 10 else priority
      if containsSub c "content".toList || containsSub c "article".toList
        then priority + 15 else priority
    | none => priority
  clampPriority (priority + importanceContribution importance)

/-! ## Content analyzer (src/unnamed/part_001, lines 400-511) -/

/-- The structural features of a parsed document that
`calculateContentQuality` inspects (the goquery selector mechanics are an
external collaborator): `bodyTextLength` is
`len(strings.TrimSpace(doc.Find("body").Text()))`, `headingCount` is
`doc.Find("h1, h2, h3").Length()`, `paragraphCount` is
`doc.Find("p").Length()`, `metaDescriptionCount` is
`doc.Find("meta[name='description']").Length()`. -/
structure DocumentStats where
  bodyTextLength : ℕ
  headingCount : ℕ
  paragraphCount : ℕ
  metaDescriptionCount : ℕ

/-- `calculateContentQuality` (lines 430-463): `score` starts at `0.0` and
accumulates the bonuses with `float64` additions; finally
`if score > 1.0 { score = 1.0 }`. -/
def calculateContentQuality (doc : DocumentStats) : ℚ :=
  let score : ℚ := 0
  let score := if 500 < doc.bodyTextLength then fadd score lit03 else score
  let score := if 2000 < doc.bodyTextLength then fadd score lit02 else score
  let score := if 0 < doc.headingCount then fadd score lit02 else score
  let score := if 3 < doc.paragraphCount then fadd score lit02 else score
  let score := if 0 < doc.metaDescriptionCount then fadd score lit01 else score
  if 1 < score then 1 else score

/-- `calculateLinkDensity` (lines 465-479). `textLength` is
`len(doc.Find("body").Text())` (untrimmed), `linkTextLength` is
`len(doc.Find("a").Text())`; the two `int → float64` conversions are exact
for any realistic document size (below 2^53), so they are modelled as the
exact casts. -/
def calculateLinkDensity (textLength linkTextLength : ℕ) : ℚ :=
  if textLength = 0 then 0
  else
    let density := fdiv (linkTextLength : ℚ) (textLength : ℚ)
    if 1 < density then 1 else density

/-! ## Duplicate detector (src/unnamed/part_001, lines 513-540)

Sequential semantics: `IsDuplicate` takes the current `seenHashes` set (a
list) and returns the Go function's return value together with the updated
set. -/

/-- `DuplicateDetector.IsDuplicate`, sequential semantics (lines 525-540):
membership test, and insertion when absent. -/
def IsDuplicate (seenHashes : List (List Char)) (hash : List Char) :
    Bool × List (List Char) :=
  if seenHashes.contains hash then (true, seenHashes)
  else (false, hash :: seenHashes)

/-! Concurrent semantics of `IsDuplicate`: the Go body consists of two
separately locked critical sections — the membership read under
`mutex.RLock` (lines 526-531) and, only reached when the read found
nothing, the insertion under `mutex.Lock` (lines 534-536, after the
read lock was released on line 533). Each critical section is one atomic
step of a thread; between the two sections the thread holds no lock, so
steps of other threads may interleave. Thread state is a program counter
(0 = before the read section, 1 = between the sections, 2 = returned) plus
the returned value; two threads race on one shared fingerprint, so the
shared set is just a `Bool` ("is the fingerprint recorded"). -/

/-- One atomic step of a single `IsDuplicate` call: from the shared flag,
the thread's program counter and its pending result, produce the new
shared flag, program counter and result. -/
def ddStepThread (seen : Bool) (pc : ℕ) (res : Option Bool) :
    Bool × ℕ × Option Bool :=
  match pc with
  | 0 => if seen then (seen, 2, some true) else (seen, 1, res)
  | 1 => (true, 2, some false)
  | _ => (seen, pc, res)

/-- Global state of two concurrent `IsDuplicate` calls on the same fresh
fingerprint. -/
structure RaceState where
  seen : Bool
  pcA : ℕ
  pcB : ℕ
  resA : Option Bool
  resB : Option Bool
deriving DecidableEq

/-- Interleaving step: `true` schedules thread A, `false` thread B. -/
def raceStep (s : RaceState) (t : Bool) : RaceState :=
  if t then
    { s with
      seen := (ddStepThread s.seen s.pcA s.resA).1
      pcA := (ddStepThread s.seen s.pcA s.resA).2.1
      resA := (ddStepThread s.seen s.pcA s.resA).2.2 }
  else
    { s with
      seen := (ddStepThread s.seen s.pcB s.resB).1
      pcB := (ddStepThread s.seen s.pcB s.resB).2.1
      resB := (ddStepThread s.seen s.pcB s.resB).2.2 }

/-- Run a schedule from the initial state (fingerprint unrecorded, both
threads about to execute the read section). -/
def raceRun (sched : List Bool) : RaceState :=
  sched.foldl raceStep { seen := false, pcA := 0, pcB := 0, resA := none, resB := none }

/-! ## Frontier store (src/database/postgres.go)

The `crawl_queue` table is a list of rows in scheduling order
(`scheduled_at` ascending = insertion order); `status` is only ever
`'pending'` (the column default) or `'completed'` (written by
`MarkURLProcessed`). -/

/-- The `status` column values that ever occur. -/
inductive QStatus where
  | pending
  | completed
deriving DecidableEq

/-- One row of `crawl_queue` (the columns the Go code reads or writes). -/
structure QueueRow where
  url : List Char
  priority : ℤ
  depth : ℤ
  parentURL : List Char
  status : QStatus
deriving DecidableEq

/-- The context carried by `models.URLContext` (the fields the crawler
reads; `LastModified` is wall-clock time and `SimilarityScore` is unused,
so neither is modelled). Zero values mirror Go's. -/
structure URLContext where
  contentType : List Char := []
  importance : ℚ := 0
  linkDensity : ℚ := 0
  contentQuality : ℚ := 0
deriving DecidableEq

/-- `models.URLPriority`. -/
structure URLPriority where
  url : List Char
  priority : ℤ
  depth : ℤ
  parent : List Char := []
  context : URLContext := {}
deriving DecidableEq

/-- The `INSERT ... ON CONFLICT (url) DO UPDATE SET priority =
GREATEST(crawl_queue.priority, EXCLUDED.priority)` statement of
`AddToQueue` (lines 126-131) for one entry: on conflict only `priority` is
updated (to the maximum); otherwise a fresh row is appended with the
default status `'pending'`. -/
def upsertRow (queue : List QueueRow) (e : URLPriority) : List QueueRow :=
  if queue.any (fun r => r.url == e.url) then
    queue.map (fun r =>
      if r.url == e.url then { r with priority := max r.priority e.priority } else r)
  else
    queue ++ [{ url := e.url, priority := e.priority, depth := e.depth,
                parentURL := e.parent, status := QStatus.pending }]

/-- `AddToQueue` (lines 119-145): the prepared statement is executed once
per entry, in order, inside one transaction (the success path). -/
def AddToQueue (queue : List QueueRow) (urls : List URLPriority) : List QueueRow :=
  urls.foldl upsertRow queue

/-- Row lookup by URL (the `url` column is UNIQUE). -/
def lookupQueue (queue : List QueueRow) (url : List Char) : Option QueueRow :=
  queue.find? (fun r => r.url == url)

/-- Stable insertion into a priority-descending list (ties keep the earlier
scheduled row first, matching `ORDER BY priority DESC, scheduled_at ASC`). -/
def insertByPriority (r : QueueRow) : List QueueRow → List QueueRow
  | [] => [r]
  | x :: xs => if x.priority < r.priority then r :: x :: xs else x :: insertByPriority r xs

/-- `ORDER BY priority DESC, scheduled_at ASC` as a stable sort. -/
def sortByPriorityDesc (rows : List QueueRow) : List QueueRow :=
  rows.foldr insertByPriority []

/-- `rows.Scan(&url.URL, &url.Priority, &url.Depth, &url.Parent)`: the
returned `models.URLPriority` carries a zero-valued context. -/
def rowToURLPriority (r : QueueRow) : URLPriority :=
  { url := r.url, priority := r.priority, depth := r.depth, parent := r.parentURL }

/-- `GetNextURLs` (lines 147-173): `SELECT url, priority, depth, parent_url
FROM crawl_queue WHERE status = 'pending' ORDER BY priority DESC,
scheduled_at ASC LIMIT $1`. It is a plain SELECT: the function performs no
write, so it is a pure function of the queue and the queue is unchanged by
a call. -/
def GetNextURLs (queue : List QueueRow) (limit : ℕ) : List URLPriority :=
  ((sortByPriorityDesc (queue.filter (fun r => decide (r.status = QStatus.pending)))).take
    limit).map rowToURLPriority

/-- `GetNextURLs` as a state transition, to make the delivered batch and
the store state after the call explicit in one place: the batch is the
SELECT result and the state is unchanged (no UPDATE is issued). -/
def nextBatchTransition (queue : List QueueRow) (limit : ℕ) :
    List URLPriority × List QueueRow :=
  (GetNextURLs queue limit, queue)

/-- `MarkURLProcessed` (lines 175-178): `UPDATE crawl_queue SET status =
'completed' WHERE url = $1`. -/
def MarkURLProcessed (queue : List QueueRow) (url : List Char) : List QueueRow :=
  queue.map (fun r => if r.url == url then { r with status := QStatus.completed } else r)

/-! ## Smart crawler link extraction and dispatch
(src/unnamed/part_001, lines 49-120 and 217-250) -/

/-- An `<a href>` element as `extractSmartLinks` sees it: the anchor text,
the optional `rel` and `class` attributes, and the absolute URL computed by
`makeAbsoluteURL` (Go standard-library URL resolution, kept abstract; the
empty string models resolution failure or an anchor-only link, which
`makeAbsoluteURL` signals by returning `""`). -/
structure Anchor where
  absoluteURL : List Char
  anchorText : List Char
  rel : Option (List Char)
  cls : Option (List Char)

/-- `guessContentType` (lines 322-336). -/
def guessContentType (url : List Char) : List Char :=
  if containsSub (lowerStr url) "/blog/".toList
      || containsSub (lowerStr url) "/article/".toList then "article".toList
  else if containsSub (lowerStr url) "/news/".toList then "news".toList
  else if containsSub (lowerStr url) "/doc".toList
      || containsSub (lowerStr url) "/help/".toList then "documentation".toList
  else "general".toList

/-- `extractSmartLinks` (lines 217-250): each anchor whose absolute URL is
non-empty and valid becomes a frontier entry at `parentDepth + 1` whose
context inherits `importance = priority/100` (a `float64` division), the
guessed content type, and the parent's link density. -/
def extractSmartLinks (parse : List Char → Option ParsedURL) (baseURL : List Char)
    (pageContext : URLContext) (parentDepth : ℤ) (anchors : List Anchor) :
    List URLPriority :=
  anchors.filterMap (fun a =>
    if a.absoluteURL.isEmpty || !(IsValidURL parse a.absoluteURL) then none
    else
      some { url := a.absoluteURL
             priority := calculateLinkPriority a.anchorText a.rel a.cls pageContext.importance
             depth := parentDepth + 1
             parent := baseURL
             context := {
               importance := fdiv
                 ((calculateLinkPriority a.anchorText a.rel a.cls pageContext.importance : ℤ) : ℚ)
                 100
               contentType := guessContentType a.absoluteURL
               linkDensity := pageContext.linkDensity } })

/-- The seed entry `Crawl` builds (lines 68-75): priority 100, depth 0,
importance 1.0. -/
def initialURL (startURL : List Char) : URLPriority :=
  { url := startURL, priority := 100, depth := 0, context := { importance := 1 } }

/-- The sequence of entries `Crawl` sends into the worker channel
(lines 77 and 105-117): the seed is sent unconditionally, and every entry
of every polled batch is sent iff its depth is `≤ maxDepth`. Workers
receive exactly the entries of this list. -/
def dispatchedEntries (startURL : List Char) (batches : List (List URLPriority))
    (maxDepth : ℤ) : List URLPriority :=
  initialURL startURL :: (batches.flatten.filter (fun e => decide (e.depth ≤ maxDepth)))

/-! ## Shared helper lemmas for the claims -/

theorem clampPriority_bounds (p : ℤ) : 1 ≤ clampPriority p ∧ clampPriority p ≤ 100 := by
  unfold clampPriority
  dsimp only
  split_ifs <;> omega

theorem importanceContribution_at_049 : importanceContribution (49 / 100) = 9 := by
  rw [importanceContribution, fmul_049_20, ratTrunc, if_neg (by norm_num)]
  norm_num

/-- The priority of an otherwise-neutral link (empty anchor text, no `rel`,
no `class`) from a page of importance 0.49: `50 + int(0.49 * 20) = 59`. -/
theorem calcPriority_at_049 : calculateLinkPriority [] none none (49 / 100) = 59 := by
  have hic : importanceContribution (49 / 100) = 9 := importanceContribution_at_049
  unfold calculateLinkPriority
  dsimp only
  rw [hic]
  decide

/-- The spec's "rounded to the nearest integer". -/
def qround (q : ℚ) : ℤ := ⌊q + 1 / 2⌋

/-! ## C1 -/

/-- C1: for every combination of anchor text, `rel` attribute, `class`
attribute, and referring-page context (arbitrarily many negative signals
included), the link priority computed by `calculateLinkPriority` is an
integer in `[1, 100]`. -/
theorem c1_link_priority_in_bounds (anchorText : List Char)
    (rel cls : Option (List Char)) (importance : ℚ) :
    1 ≤ calculateLinkPriority anchorText rel cls importance ∧
    calculateLinkPriority anchorText rel cls importance ≤ 100 := by
  unfold calculateLinkPriority
  exact clampPriority_bounds _

/-! ## C2 -/

/-- C2, counterexample: the claim says the importance contribution is
`round(importance * 20)` — nearest integer, so `10` for importance `0.49` —
but for an otherwise-neutral link from a page of importance 0.49 the code
computes priority 59, i.e. contribution `59 - 50 = 9 ≠ round(9.8) = 10`:
Go's `int(...)` truncates. -/
theorem c2_importance_round_counterexample :
    calculateLinkPriority [] none none (49 / 100) - 50 ≠ qround ((49 : ℚ) / 100 * 20) := by
  rw [calcPriority_at_049]
  have h : qround ((49 : ℚ) / 100 * 20) = 10 := by
    rw [qround]
    norm_num
  rw [h]
  decide

/-- C2, amended: the contribution of the referring page's importance score
equals `importance * 20` (a `float64` product) truncated toward zero —
equivalently `⌊fmul importance 20⌋` for non-negative importance — so for
importance 0.49 the contribution is 9 and an otherwise-neutral link gets
priority 59, not 60. -/
theorem c2_importance_truncation :
    (∀ importance : ℚ, 0 ≤ importance →
      importanceContribution importance = ⌊fmul importance 20⌋) ∧
    calculateLinkPriority [] none none (49 / 100) = 59 := by
  constructor
  · intro importance h
    have hnn : 0 ≤ fmul importance 20 := round53_nonneg _ (by positivity)
    rw [importanceContribution, ratTrunc, if_neg (not_lt.mpr hnn)]
  · exact calcPriority_at_049

/-- C2, witness for the amended theorem at importance `1/2`. -/
theorem c2_importance_truncation_witness :
    importanceContribution (1 / 2) = ⌊fmul (1 / 2 : ℚ) 20⌋ :=
  c2_importance_truncation.1 (1 / 2) (by norm_num)

/-! ## C3 -/

theorem find?_update_priority (u : List Char) (p : ℤ) :
    ∀ (q : List QueueRow) (r : QueueRow),
      q.find? (fun row => row.url == u) = some r →
      (q.map (fun row => if row.url == u then { row with priority := max row.priority p }
        else row)).find? (fun row => row.url == u)
        = some { r with priority := max r.priority p } := by
  intro q
  induction q with
  | nil => intro r h; simp [List.find?] at h
  | cons x xs ih =>
    intro r h
    by_cases hx : (x.url == u) = true
    · rw [@List.find?_cons_of_pos QueueRow (fun row => row.url == u) x xs hx] at h
      injection h with h
      subst h
      rw [List.map_cons, if_pos hx]
      exact @List.find?_cons_of_pos QueueRow (fun row => row.url == u) _ _ hx
    · rw [@List.find?_cons_of_neg QueueRow (fun row => row.url == u) x xs hx] at h
      rw [List.map_cons, if_neg hx]
      rw [@List.find?_cons_of_neg QueueRow (fun row => row.url == u) _ _ hx]
      exact ih r h

/-- The entry `{url: "u", priority: 30, depth: 2, parent: "p"}`. -/
def entry30 : URLPriority :=
  { url := "u".toList, priority := 30, depth := 2, parent := "p".toList }

/-- The entry `{url: "u", priority: 80, depth: 5, parent: "x"}`. -/
def entry80 : URLPriority :=
  { url := "u".toList, priority := 80, depth := 5, parent := "x".toList }

/-- C3: `AddToQueue` is a priority-monotonic upsert. For an entry whose URL
is already queued, the stored row keeps its depth, parent and status, and
its priority becomes `max(existing, new)` (the `ON CONFLICT` clause updates
only `priority`, with `GREATEST`); in particular enqueuing priorities 30
then 80 and 80 then 30 both leave the stored priority at 80, with depth and
parent fixed by the first insertion. -/
theorem c3_enqueue_priority_monotonic_upsert :
    (∀ (queue : List QueueRow) (e : URLPriority) (r : QueueRow),
       lookupQueue queue e.url = some r →
       lookupQueue (AddToQueue queue [e]) e.url
         = some { r with priority := max r.priority e.priority }) ∧
    lookupQueue (AddToQueue (AddToQueue [] [entry30]) [entry80]) "u".toList
      = some { url := "u".toList, priority := 80, depth := 2, parentURL := "p".toList,
               status := QStatus.pending } ∧
    lookupQueue (AddToQueue (AddToQueue [] [entry80]) [entry30]) "u".toList
      = some { url := "u".toList, priority := 80, depth := 5, parentURL := "x".toList,
               status := QStatus.pending } := by
  refine ⟨?_, by decide, by decide⟩
  intro queue e r h
  rw [lookupQueue] at h
  have hp := List.find?_some h
  have hmem : queue.any (fun row => row.url == e.url) = true :=
    List.any_eq_true.mpr ⟨r, List.mem_of_find?_eq_some h, hp⟩
  show lookupQueue (upsertRow queue e) e.url = _
  rw [upsertRow, if_pos hmem, lookupQueue]
  exact find?_update_priority e.url e.priority queue r h

/-- C3, witness: the general upsert clause applied to a queue holding
`{url: "u", priority: 30, depth: 2, parent: "p"}` and the entry `entry80`. -/
theorem c3_enqueue_priority_monotonic_upsert_witness :
    lookupQueue
      (AddToQueue [{ url := "u".toList, priority := 30, depth := 2,
                     parentURL := "p".toList, status := QStatus.pending }] [entry80])
      entry80.url
      = some { url := "u".toList, priority := max 30 80, depth := 2,
               parentURL := "p".toList, status := QStatus.pending } :=
  c3_enqueue_priority_monotonic_upsert.1
    [{ url := "u".toList, priority := 30, depth := 2,
       parentURL := "p".toList, status := QStatus.pending }]
    entry80
    { url := "u".toList, priority := 30, depth := 2,
      parentURL := "p".toList, status := QStatus.pending }
    (by decide)

/-! ## C4 -/

/-- C4: sequential duplicate-detector semantics. A fresh fingerprint is
recorded and reported as not-a-duplicate (`false`); a present fingerprint
is reported as a duplicate (`true`); and no call ever removes a recorded
fingerprint (the seen-set only grows). -/
theorem c4_duplicate_detector_sequential :
    (∀ (seen : List (List Char)) (hash : List Char), hash ∉ seen →
        IsDuplicate seen hash = (false, hash :: seen)) ∧
    (∀ (seen : List (List Char)) (hash : List Char), hash ∈ seen →
        IsDuplicate seen hash = (true, seen)) ∧
    (∀ (seen : List (List Char)) (hash x : List Char), x ∈ seen →
        x ∈ (IsDuplicate seen hash).2) := by
  refine ⟨?_, ?_, ?_⟩
  · intro seen hash h
    rw [IsDuplicate, if_neg (by simpa using h)]
  · intro seen hash h
    rw [IsDuplicate, if_pos (by simpa using h)]
  · intro seen hash x hx
    rw [IsDuplicate]
    split_ifs <;> simp [hx]

/-- C4, witness: a fresh fingerprint is recorded and reported `false`, the
second call on it reports `true`, and an unrelated later call keeps it
recorded. -/
theorem c4_duplicate_detector_sequential_witness :
    IsDuplicate [] "h1".toList = (false, ["h1".toList]) ∧
    IsDuplicate ["h1".toList] "h1".toList = (true, ["h1".toList]) ∧
    "h1".toList ∈ (IsDuplicate ["h1".toList] "h2".toList).2 :=
  ⟨c4_duplicate_detector_sequential.1 [] "h1".toList (by decide),
   c4_duplicate_detector_sequential.2.1 ["h1".toList] "h1".toList (by decide),
   c4_duplicate_detector_sequential.2.2 ["h1".toList] "h2".toList "h1".toList (by decide)⟩

/-! ## C5 -/

/-- C5: the code violates the claim. In the admissible interleaving
A-read, B-read, A-insert, B-insert (admissible because `IsDuplicate`
releases the read lock before taking the write lock, lines 533-534), both
concurrent first-time callers of the duplicate detector observe `false` —
not exactly one, as claimed: the check and the insert are two separate
critical sections, not one atomic test-and-set. -/
theorem c5_duplicate_detector_race_both_false :
    (raceRun [true, false, true, false]).resA = some false ∧
    (raceRun [true, false, true, false]).resB = some false := by
  decide

/-! ## C6 -/

/-- A frontier containing one pending row. -/
def demoRow : QueueRow :=
  { url := "https://a.example/".toList, priority := 50, depth := 0,
    parentURL := [], status := QStatus.pending }

/-- C6: the code violates the claim. `GetNextURLs` issues only a SELECT and
never marks a row in-flight, so after the row is delivered to a first
caller (and before `MarkURLProcessed`) a second caller receives the same
URL again; only `MarkURLProcessed` stops redelivery. There is no
"mark in-flight" status transition in the store at all. -/
theorem c6_next_batch_redelivers_inflight :
    (nextBatchTransition [demoRow] 1).1 = [rowToURLPriority demoRow] ∧
    (nextBatchTransition (nextBatchTransition [demoRow] 1).2 1).1
      = [rowToURLPriority demoRow] ∧
    GetNextURLs (MarkURLProcessed [demoRow] demoRow.url) 1 = [] := by
  decide

/-! ## C7 -/

/-- C7, counterexample: the claim quantifies over every `Crawl(seedURL,
maxDepth)` call, but `Crawl` pushes the seed entry into the worker channel
unconditionally (line 77), before any depth filtering; with `maxDepth = -1`
the seed (depth 0) is handed to a worker even though its depth exceeds
`maxDepth`. -/
theorem c7_seed_dispatched_beyond_maxdepth :
    initialURL "https://example.com".toList
        ∈ dispatchedEntries "https://example.com".toList [] (-1) ∧
    ¬ ((initialURL "https://example.com".toList).depth ≤ (-1 : ℤ)) := by
  constructor
  · exact List.mem_cons_self _ _
  · decide

/-- C7, amended: every link discovered by `extractSmartLinks` is enqueued
at the parent's depth plus one, and — provided `maxDepth ≥ 0` — every entry
handed to a worker during `Crawl` (the seed included) has depth at most
`maxDepth`. (The restriction `maxDepth ≥ 0` is forced by the
counterexample: the unconditional seed push ignores the depth bound.) -/
theorem c7_depth_propagation :
    (∀ (parse : List Char → Option ParsedURL) (baseURL : List Char)
       (pageContext : URLContext) (parentDepth : ℤ) (anchors : List Anchor),
       ∀ l ∈ extractSmartLinks parse baseURL pageContext parentDepth anchors,
         l.depth = parentDepth + 1) ∧
    (∀ (startURL : List Char) (batches : List (List URLPriority)) (maxDepth : ℤ),
       0 ≤ maxDepth →
       ∀ e ∈ dispatchedEntries startURL batches maxDepth, e.depth ≤ maxDepth) := by
  constructor
  · intro parse baseURL ctx pd anchors l hl
    rw [extractSmartLinks] at hl
    rcases List.mem_filterMap.mp hl with ⟨a, -, hfa⟩
    by_cases hc : (a.absoluteURL.isEmpty || !(IsValidURL parse a.absoluteURL)) = true
    · rw [if_pos hc] at hfa
      cases hfa
    · rw [if_neg hc] at hfa
      cases hfa
      rfl
  · intro startURL batches maxDepth hmd e he
    rcases List.mem_cons.mp he with rfl | hmem
    · exact hmd
    · exact of_decide_eq_true (List.mem_filter.mp hmem).2


/-- C7, witness for the amended theorem: with `maxDepth = 3` the seed entry
itself is dispatched within bounds. -/
theorem c7_depth_propagation_witness :
    (initialURL "https://example.com".toList).depth ≤ (3 : ℤ) :=
  c7_depth_propagation.2 "https://example.com".toList [] 3 (by norm_num) _
    (List.mem_cons_self _ _)

/-! ## C8 -/

theorem score_step_nonneg (s k : ℚ) (c : Prop) [Decidable c] (hs : 0 ≤ s) (hk : 0 ≤ k) :
    0 ≤ (if c then fadd s k else s) := by
  split_ifs
  · exact round53_nonneg _ (add_nonneg hs hk)
  · exact hs

theorem cap_bounds (x : ℚ) (hx : 0 ≤ x) :
    0 ≤ (if 1 < x then 1 else x) ∧ (if 1 < x then 1 else x) ≤ 1 := by
  split_ifs with h
  · exact ⟨by norm_num, le_refl 1⟩
  · exact ⟨hx, le_of_not_lt h⟩

theorem lit03_nonneg : 0 ≤ lit03 := round53_nonneg _ (by norm_num)

theorem lit02_nonneg : 0 ≤ lit02 := round53_nonneg _ (by norm_num)

theorem lit01_nonneg : 0 ≤ lit01 := round53_nonneg _ (by norm_num)

/-- The quality score of the spec's scenario document (2500 chars of body
text, one h1, 5 paragraphs, a meta description): all five bonuses fire and
the `float64` sum `0.3+0.2+0.2+0.2+0.1` evaluates to
`(2^53 - 1)/2^53 = 0.9999999999999999`, which the `> 1.0` cap leaves
untouched. -/
theorem quality_scenario_eval :
    calculateContentQuality ⟨2500, 1, 5, 1⟩ = 9007199254740991 / 9007199254740992 := by
  unfold calculateContentQuality
  norm_num [fadd_zero_lit03, fadd_step2, fadd_step3, fadd_step4, fadd_step5]

/-- C8, counterexample: the claim says the scenario document yields quality
score exactly 1.0, but the code's `float64` accumulation yields
`0.9999999999999999` (= `(2^53-1)/2^53`), which is not 1. -/
theorem c8_quality_scenario_not_one :
    calculateContentQuality ⟨2500, 1, 5, 1⟩ ≠ 1 := by
  rw [quality_scenario_eval]
  norm_num

/-- C8, amended: the content quality score is the IEEE-754 double sum of
the applicable bonuses capped at 1.0 — so the scenario document (2500 chars
of body text, one h1, 5 paragraphs, a meta description) yields
`(2^53 - 1)/2^53 ≈ 0.9999999999999999`, not exactly 1.0 — and the score
always lies in `[0, 1]`. -/
theorem c8_quality_float_sum :
    calculateContentQuality ⟨2500, 1, 5, 1⟩ = 9007199254740991 / 9007199254740992 ∧
    ∀ doc : DocumentStats,
      0 ≤ calculateContentQuality doc ∧ calculateContentQuality doc ≤ 1 := by
  refine ⟨quality_scenario_eval, ?_⟩
  intro doc
  unfold calculateContentQuality
  dsimp only
  exact cap_bounds _
    (score_step_nonneg _ _ _
      (score_step_nonneg _ _ _
        (score_step_nonneg _ _ _
          (score_step_nonneg _ _ _
            (score_step_nonneg _ _ _ (le_refl 0) lit03_nonneg)
            lit02_nonneg)
          lit02_nonneg)
        lit02_nonneg)
      lit01_nonneg)

/-! ## C9 -/

/-- C9: the link density is 0 when the body text length is 0 (the division
is guarded and never evaluated on a zero denominator), otherwise it is the
(float64) ratio of anchor-text length to body text length capped at 1.0,
and the result always lies in `[0, 1]`. -/
theorem c9_link_density_guarded_bounds (textLength linkTextLength : ℕ) :
    (textLength = 0 → calculateLinkDensity textLength linkTextLength = 0) ∧
    0 ≤ calculateLinkDensity textLength linkTextLength ∧
    calculateLinkDensity textLength linkTextLength ≤ 1 := by
  refine ⟨fun h => by rw [calculateLinkDensity, if_pos h], ?_, ?_⟩
  · rw [calculateLinkDensity]
    dsimp only
    split_ifs with h0 hcap
    · norm_num
    · norm_num
    · exact round53_nonneg _ (by positivity)
  · rw [calculateLinkDensity]
    dsimp only
    split_ifs with h0 hcap
    · norm_num
    · norm_num
    · exact le_of_not_lt hcap

/-- C9, witness: an empty body yields density 0 (zero-denominator guard),
and a concrete non-empty body stays within the bounds. -/
theorem c9_link_density_guarded_bounds_witness :
    calculateLinkDensity 0 5 = 0 ∧ 0 ≤ calculateLinkDensity 3 1 :=
  ⟨(c9_link_density_guarded_bounds 0 5).1 rfl,
   (c9_link_density_guarded_bounds 3 1).2.1⟩


/-! ## C10 -/

/-- The conditions on the parse result that `IsValidURL` demands: a parse
success with non-empty host and scheme `http` or `https`. -/
def urlParsedOK : Option ParsedURL → Bool
  | none => false
  | some u => !u.scheme.isEmpty && !u.host.isEmpty &&
      (u.scheme == "http".toList || u.scheme == "https".toList)

/-- No excluded substring occurs in the lower-cased URL text. -/
def noExcludedPattern (raw : List Char) : Bool :=
  excludePatterns.all (fun pat => !(containsSub (lowerStr raw) pat))

/-- The URL of the claim: its path ends in `data.json`, and `".js"` occurs
inside `".json"`. -/
def dataJsonURL : List Char := "https://example.com/data.json".toList

/-- C10: `IsValidURL` returns true only if the string parses with a
non-empty host and an http/https scheme and its lower-cased text contains
none of the excluded substrings; consequently
`https://example.com/data.json` is rejected (`.js` matches inside
`.json`) whatever the parser says, and every link `extractSmartLinks`
produces has a URL that `IsValidURL` accepts — so a rejected URL is never
enqueued. -/
theorem c10_isvalidurl_only_if :
    (∀ (parse : List Char → Option ParsedURL) (rawURL : List Char),
       IsValidURL parse rawURL = true →
       urlParsedOK (parse rawURL) = true ∧ noExcludedPattern rawURL = true) ∧
    (∀ parse : List Char → Option ParsedURL, IsValidURL parse dataJsonURL = false) ∧
    (∀ (parse : List Char → Option ParsedURL) (baseURL : List Char)
       (pageContext : URLContext) (parentDepth : ℤ) (anchors : List Anchor),
       ∀ l ∈ extractSmartLinks parse baseURL pageContext parentDepth anchors,
         IsValidURL parse l.url = true) := by
  refine ⟨?_, ?_, ?_⟩
  · intro parse raw h
    rw [IsValidURL] at h
    by_cases h0 : raw.isEmpty = true
    · rw [if_pos h0] at h
      simp at h
    · rw [if_neg h0] at h
      cases hp : parse raw with
      | none => rw [hp] at h; simp at h
      | some u =>
        rw [hp] at h
        dsimp only at h
        split_ifs at h with h1 h2 h3
        all_goals try simp at h
        constructor
        · simp only [urlParsedOK]
          simp at h1 h2
          simp [h1.1, h1.2]
          by_cases hh : u.scheme = "http".toList
          · simp [hh]
          · simp [h2 hh]
        · rw [noExcludedPattern]
          simp only [List.all_eq_true]
          intro pat hpat
          simp at h3
          simp [h3 pat hpat]
  · intro parse
    rw [IsValidURL]
    rw [if_neg (by decide : ¬ dataJsonURL.isEmpty = true)]
    cases hp : parse dataJsonURL with
    | none => rfl
    | some u =>
      dsimp only
      split_ifs with h1 h2 h3
      · rfl
      · rfl
      · rfl
      · exact absurd (by decide) h3
  · intro parse baseURL ctx pd anchors l hl
    rw [extractSmartLinks] at hl
    rcases List.mem_filterMap.mp hl with ⟨a, -, hfa⟩
    by_cases hc : (a.absoluteURL.isEmpty || !(IsValidURL parse a.absoluteURL)) = true
    · rw [if_pos hc] at hfa
      cases hfa
    · rw [if_neg hc] at hfa
      cases hfa
      have h2 := Bool.or_eq_false_iff.mp (Bool.eq_false_iff.mpr hc)
      simpa using h2.2

/-- A parser that reports scheme `https` and host `example.com`. -/
def alwaysHttpsExample : List Char → Option ParsedURL :=
  fun _ => some { scheme := "https".toList, host := "example.com".toList }

/-- A URL accepted by `IsValidURL` under that parser. -/
def goodURL : List Char := "https://example.com/page".toList

/-- C10, witness: instantiating the only-if clause at a concrete accepted
URL. -/
theorem c10_isvalidurl_only_if_witness :
    urlParsedOK (alwaysHttpsExample goodURL) = true ∧ noExcludedPattern goodURL = true :=
  c10_isvalidurl_only_if.1 alwaysHttpsExample goodURL (by decide)

end Crawler
